import Mathlib

/-!
Shallow embedding of src/server/pdf_generator.py.

The script converts a config (output path, page format, optional cover image,
page list) into a multi-page PDF, drawing each image full-bleed on its page.
Python floats are modelled as exact rationals, PIL pixel sizes as naturals,
the file system as a function from paths to optional image files, the
ReportLab canvas as an accumulating page list, and Python exceptions as an
Except monad whose catch points mirror the try/except blocks of the source.
-/

/-- Model of the decodable content behind a path in the file system:
pixel dimensions and mode as PIL reports them, plus flags saying whether
PIL can decode the file and whether ReportLab can draw the resulting image
(the two exception sources inside the per-image pipeline). -/
structure ImageFile where
  width : Nat
  height : Nat
  mode : String
  decodeOk : Bool
  drawOk : Bool
deriving DecidableEq

/-- Model of reportlab.lib.utils.ImageReader: the value load_image_from_path
returns, remembering the source path, the getSize dimensions, the (possibly
converted) mode and the drawability flag. -/
structure ImageReader where
  path : String
  width : Nat
  height : Nat
  mode : String
  drawOk : Bool
deriving DecidableEq

/-- File system: os.path.exists image_path is modelled by the result being
some file; a path that exists but is not a decodable image carries
decodeOk = false. -/
def FS : Type := String → Option ImageFile

/-- Python str.startswith: the characters of the prefix argument are an
initial segment of the characters of the string. -/
def startswith (s pre : String) : Bool := pre.data.isPrefixOf s.data

/-- PDF_FORMATS: the fixed format table of the script, name to
(width, height) in inches. -/
def PDF_FORMATS : List (String × (ℚ × ℚ)) :=
  [(("5.5x8.5"), (5.5, 8.5)),
   (("7x7"), (7, 7)),
   (("8x8"), (8, 8)),
   (("6x9"), (6, 9)),
   (("8x10"), (8, 10)),
   (("5x8"), (5, 8)),
   (("8.5x11"), (8.5, 11)),
   (("8.5x8.5"), (8.5, 8.5)),
   (("6.14x9.21"), (6.14, 9.21)),
   (("8.25x6"), (8.25, 6))]

/-- get_page_size: look the format name up in PDF_FORMATS and convert inches
to points (72 points per inch); default to 8x8 when the name is unknown. -/
def get_page_size (format_name : String) : ℚ × ℚ :=
  match PDF_FORMATS.lookup format_name with
  | some wh => (wh.1 * 72, wh.2 * 72)
  | none => (8 * 72, 8 * 72)

/-- Body of load_image_from_path, inside its try block. Object-storage
paths and missing files return None with a stderr line; a file PIL cannot
decode raises; otherwise the image is opened, its mode converted to RGB
unless it is already RGB or L, and an ImageReader is returned. -/
def load_image_body (fs : FS) (image_path : String) :
    Except String (Option ImageReader × List String) :=
  if startswith image_path ("/objects/") || startswith image_path ("objects/") then
    .ok (none, [("Skipping object storage path: ") ++ image_path])
  else
    match fs image_path with
    | none => .ok (none, [("Image not found: ") ++ image_path])
    | some f =>
      if f.decodeOk then
        let m := if f.mode = ("RGB") || f.mode = ("L") then f.mode else ("RGB")
        .ok (some { path := image_path, width := f.width, height := f.height,
                    mode := m, drawOk := f.drawOk }, [])
      else .error ("cannot identify image file")

/-- load_image_from_path: the body wrapped in the try/except that logs and
returns None on any exception. -/
def load_image_from_path (fs : FS) (image_path : String) :
    Option ImageReader × List String :=
  match load_image_body fs image_path with
  | .ok r => r
  | .error e => (none, [("Error loading image ") ++ image_path ++ (": ") ++ e])

/-- One drawImage call recorded on the canvas: position and size of the
drawn rectangle plus the source path of the image. -/
structure DrawOp where
  path : String
  x : ℚ
  y : ℚ
  width : ℚ
  height : ℚ
deriving DecidableEq

/-- Body of add_image_to_page, inside its try block, for a non-None reader.
Dividing page_width (a Python float) by a zero pixel dimension raises
ZeroDivisionError, modelled by the explicit zero tests; otherwise the
uniform scale, the scaled size and the centered offsets are computed and
c.drawImage either records the operation or raises. -/
def add_image_body (img : ImageReader) (page_width page_height : ℚ) :
    Except String DrawOp :=
  if img.width = 0 then .error ("division by zero")
  else if img.height = 0 then .error ("division by zero")
  else
    let scale_x := page_width / (img.width : ℚ)
    let scale_y := page_height / (img.height : ℚ)
    let scale := max scale_x scale_y
    let scaled_width := (img.width : ℚ) * scale
    let scaled_height := (img.height : ℚ) * scale
    let x := (page_width - scaled_width) / 2
    let y := (page_height - scaled_height) / 2
    if img.drawOk then
      .ok { path := img.path, x := x, y := y,
            width := scaled_width, height := scaled_height }
    else .error ("drawImage failed")

/-- ReportLab canvas state: target file, page size, draw operations of the
page under construction, and the pages already emitted by showPage. -/
structure Canvas where
  output_path : String
  pagesize : ℚ × ℚ
  current : List DrawOp
  pages : List (List DrawOp)
deriving DecidableEq

/-- Canvas.showPage: close the page under construction and start a new one. -/
def Canvas.showPage (c : Canvas) : Canvas :=
  { c with current := [], pages := c.pages ++ [c.current] }

/-- add_image_to_page: returns immediately on a falsy reader, otherwise runs
the body under try/except, logging and leaving the canvas unchanged when
the body raises. -/
def add_image_to_page (c : Canvas) (image_reader : Option ImageReader)
    (page_width page_height : ℚ) : Canvas × List String :=
  match image_reader with
  | none => (c, [])
  | some img =>
    match add_image_body img page_width page_height with
    | .ok op => ({ c with current := c.current ++ [op] }, [])
    | .error e => (c, [("Error adding image to page: ") ++ e])

/-- One entry of the config pages list: a dict whose image_path key may be
absent (page.get returns None). -/
structure PageEntry where
  image_path : Option String
deriving DecidableEq

/-- The config dict: output_path is accessed with a raising lookup, the
other three keys with .get and hence may be absent. -/
structure Config where
  output_path : Option String
  format : Option String
  cover_image : Option String
  pages : Option (List PageEntry)
deriving DecidableEq

/-- Python truthiness of an optional string: None and the empty string are
falsy. -/
def truthy : Option String → Bool
  | none => false
  | some s => !(s = "")

/-- The dict generate_pdf returns: success true with output path, byte size
and page count, or success false with an error message. -/
inductive PyResult where
  | ok (output_path : String) (file_size : Nat) (page_count : Nat)
  | err (message : String)
deriving DecidableEq

/-- The success flag of the result dict. -/
def PyResult.success : PyResult → Bool
  | .ok _ _ _ => true
  | .err _ => false

/-- Environment of a run: the file system and the size os.path.getsize
reports for the file the canvas saved. -/
structure Env where
  fs : FS
  getsize : String → Nat

/-- Processing of one entry of the pages loop in generate_pdf: a falsy
image_path is skipped with a log line; otherwise the image is loaded and,
when the reader is non-None, drawn and the page emitted. The index i is
zero-based; total is len(pages). -/
def process_page (env : Env) (page_width page_height : ℚ) (total i : Nat)
    (c : Canvas) (page : PageEntry) : Canvas × List String :=
  match page.image_path with
  | none => (c, [("Skipping page ") ++ toString (i + 1) ++ (": no image path")])
  | some p =>
    if p = ("") then
      (c, [("Skipping page ") ++ toString (i + 1) ++ (": no image path")])
    else
      let l0 := ("Adding page ") ++ toString (i + 1) ++ ("/") ++ toString total
                  ++ (": ") ++ p
      match load_image_from_path env.fs p with
      | (some img, l1) =>
        match add_image_to_page c (some img) page_width page_height with
        | (c2, l2) =>
          (c2.showPage,
           l0 :: (l1 ++ l2 ++ [("Page ") ++ toString (i + 1) ++ (" added")]))
      | (none, l1) => (c, l0 :: l1)

/-- The pages loop of generate_pdf, threading the canvas and the stderr log
through the entries in order. -/
def process_pages (env : Env) (page_width page_height : ℚ) (total : Nat) :
    Nat → Canvas → List String → List PageEntry → Canvas × List String
  | _, c, logs, [] => (c, logs)
  | i, c, logs, page :: rest =>
    match process_page env page_width page_height total i c page with
    | (c2, l) => process_pages env page_width page_height total (i + 1) c2 (logs ++ l) rest

/-- The cover block of generate_pdf: when cover_image is truthy, load it
and, when the reader is non-None, draw it and emit the page. -/
def process_cover (env : Env) (page_width page_height : ℚ)
    (cover_image : Option String) (c : Canvas) : Canvas × List String :=
  if truthy cover_image then
    let p := cover_image.getD ("")
    let l0 := ("Adding cover: ") ++ p
    match load_image_from_path env.fs p with
    | (some img, l1) =>
      match add_image_to_page c (some img) page_width page_height with
      | (c2, l2) => (c2.showPage, l0 :: (l1 ++ l2 ++ [("Cover added")]))
    | (none, l1) => (c, l0 :: l1)
  else (c, [])

/-- The page_count field of the success record:
len(pages) + (1 if cover_image else 0). -/
def page_count_of (config : Config) : Nat :=
  (config.pages.getD []).length + (if truthy config.cover_image then 1 else 0)

/-- Body of generate_pdf inside its try block. Reading a missing
output_path key raises KeyError before anything is printed; afterwards the
format, cover and pages keys get their defaults, the canvas is built, the
cover and the pages are processed, the canvas is saved (its emitted pages
become the document) and the success record is returned. -/
def generate_pdf_body (env : Env) (config : Config) :
    Except String (PyResult × List (List DrawOp) × List String) :=
  match config.output_path with
  | none => .error ("KeyError: output_path")
  | some output_path =>
    let pdf_format := config.format.getD ("8x8")
    let cover_image := config.cover_image
    let pages := config.pages.getD []
    let ps := get_page_size pdf_format
    let logs0 := [("Generating PDF: ") ++ output_path,
                  ("Format: ") ++ pdf_format,
                  ("Pages: ") ++ toString pages.length]
    let c0 : Canvas :=
      { output_path := output_path, pagesize := ps, current := [], pages := [] }
    match process_cover env ps.1 ps.2 cover_image c0 with
    | (c1, logs1) =>
      match process_pages env ps.1 ps.2 pages.length 0 c1 [] pages with
      | (c2, logs2) =>
        let file_size := env.getsize output_path
        .ok (PyResult.ok output_path file_size (page_count_of config),
             c2.pages,
             logs0 ++ logs1 ++ logs2 ++ [("PDF generated: ") ++ output_path])

/-- generate_pdf: the body wrapped in the top-level try/except; on success
the saved document and the log are returned alongside the record, on an
exception the error record is returned and no document was saved. -/
def generate_pdf (env : Env) (config : Config) :
    PyResult × Option (List (List DrawOp)) × List String :=
  match generate_pdf_body env config with
  | .ok r => (r.1, some r.2.1, r.2.2)
  | .error e => (.err e, none, [("Error generating PDF: ") ++ e])

/-- The main block: run generate_pdf on the parsed config and exit with
status 0 when the success flag of the result is true, 1 otherwise. -/
def main_exit (env : Env) (config : Config) : Nat :=
  if (generate_pdf env config).1.success then 0 else 1

/-- Pages a single loaded path contributes to the document: none when the
reader is None (the entry is skipped, no page emitted), one page holding
the draw operation when the draw succeeds, and one blank page when
drawImage raises (showPage still runs). -/
def rendered_page (env : Env) (page_width page_height : ℚ) (p : String) :
    Option (List DrawOp) :=
  match (load_image_from_path env.fs p).1 with
  | none => none
  | some img =>
    match add_image_body img page_width page_height with
    | .ok op => some [op]
    | .error _ => some []

/-- Pages one entry of the pages list contributes to the document: none
when its image_path is falsy, otherwise whatever the path renders to. -/
def step_doc (env : Env) (page_width page_height : ℚ) (page : PageEntry) :
    Option (List DrawOp) :=
  match page.image_path with
  | none => none
  | some p => if p = ("") then none else rendered_page env page_width page_height p

/-- Pages the cover block contributes to the document. -/
def cover_doc (env : Env) (page_width page_height : ℚ)
    (cover_image : Option String) : List (List DrawOp) :=
  if truthy cover_image then
    (rendered_page env page_width page_height (cover_image.getD (""))).toList
  else []

/-- The document generate_pdf saves, in order: the cover page first when
the cover is configured and renders, then the pages of the pages list in
input order. -/
def expected_doc (env : Env) (page_width page_height : ℚ)
    (cover_image : Option String) (pages : List PageEntry) :
    List (List DrawOp) :=
  cover_doc env page_width page_height cover_image ++
    pages.filterMap (step_doc env page_width page_height)

/-- Sample file system with no files at all. -/
def fs0 : FS := fun _ => none

/-- Sample environment over the empty file system. -/
def env0 : Env := { fs := fs0, getsize := fun _ => 0 }

/-- Sample file system with one good image a.png and one undecodable file
bad.png. -/
def fsA : FS := fun p =>
  if p = ("a.png") then
    some { width := 100, height := 50, mode := ("RGB"), decodeOk := true, drawOk := true }
  else if p = ("bad.png") then
    some { width := 100, height := 50, mode := ("RGB"), decodeOk := false, drawOk := true }
  else none

/-- Sample environment over fsA. -/
def envA : Env := { fs := fsA, getsize := fun _ => 7 }

/-- Sample good 100 by 50 RGB reader. -/
def imgA : ImageReader :=
  { path := ("a.png"), width := 100, height := 50, mode := ("RGB"), drawOk := true }

/-- Equation for add_image_body on a drawable image with nonzero pixel
dimensions: the drawn rectangle uses the uniform max scale and centered
offsets computed by the source. -/
theorem add_image_body_eq (img : ImageReader) (pw ph : ℚ)
    (hw : img.width ≠ 0) (hh : img.height ≠ 0) (hd : img.drawOk = true) :
    add_image_body img pw ph = .ok
      { path := img.path,
        x := (pw - (img.width : ℚ) * max (pw / (img.width : ℚ)) (ph / (img.height : ℚ))) / 2,
        y := (ph - (img.height : ℚ) * max (pw / (img.width : ℚ)) (ph / (img.height : ℚ))) / 2,
        width := (img.width : ℚ) * max (pw / (img.width : ℚ)) (ph / (img.height : ℚ)),
        height := (img.height : ℚ) * max (pw / (img.width : ℚ)) (ph / (img.height : ℚ)) } := by
  unfold add_image_body
  simp [hw, hh, hd]

/-- C1: for every image with positive width and height that is drawn onto
a page, add_image_to_page uses the uniform scale factor
max (page_width / image_width) (page_height / image_height), and the scaled
width and height are at least the page width and height, so the scaled
image covers the full page in both dimensions. -/
theorem add_image_scale_covers (img : ImageReader) (page_width page_height : ℚ)
    (hw : 0 < img.width) (hh : 0 < img.height) (hd : img.drawOk = true) :
    ∃ op, add_image_body img page_width page_height = .ok op ∧
      op.width = (img.width : ℚ) *
        max (page_width / (img.width : ℚ)) (page_height / (img.height : ℚ)) ∧
      op.height = (img.height : ℚ) *
        max (page_width / (img.width : ℚ)) (page_height / (img.height : ℚ)) ∧
      page_width ≤ op.width ∧ page_height ≤ op.height := by
  have hw' : img.width ≠ 0 := Nat.pos_iff_ne_zero.mp hw
  have hh' : img.height ≠ 0 := Nat.pos_iff_ne_zero.mp hh
  have hwQ : (0 : ℚ) < (img.width : ℚ) := by exact_mod_cast hw
  have hhQ : (0 : ℚ) < (img.height : ℚ) := by exact_mod_cast hh
  refine ⟨_, add_image_body_eq img page_width page_height hw' hh' hd, rfl, rfl, ?_, ?_⟩
  · calc page_width = (img.width : ℚ) * (page_width / (img.width : ℚ)) := by
          field_simp
      _ ≤ (img.width : ℚ) *
            max (page_width / (img.width : ℚ)) (page_height / (img.height : ℚ)) :=
          mul_le_mul_of_nonneg_left (le_max_left _ _) hwQ.le
  · calc page_height = (img.height : ℚ) * (page_height / (img.height : ℚ)) := by
          field_simp
      _ ≤ (img.height : ℚ) *
            max (page_width / (img.width : ℚ)) (page_height / (img.height : ℚ)) :=
          mul_le_mul_of_nonneg_left (le_max_right _ _) hhQ.le

/-- Witness for C1 at a concrete 100 by 50 image on a 576 by 576 page. -/
theorem add_image_scale_covers_w :
    ∃ op, add_image_body imgA 576 576 = .ok op ∧
      op.width = (imgA.width : ℚ) *
        max (576 / (imgA.width : ℚ)) (576 / (imgA.height : ℚ)) ∧
      op.height = (imgA.height : ℚ) *
        max (576 / (imgA.width : ℚ)) (576 / (imgA.height : ℚ)) ∧
      (576 : ℚ) ≤ op.width ∧ (576 : ℚ) ≤ op.height :=
  add_image_scale_covers imgA 576 576 (by decide) (by decide) rfl

/-- C2: every drawn image is placed at x = (page_width - scaled_width) / 2
and y = (page_height - scaled_height) / 2, so the overhang on the left
equals the overhang on the right and likewise top and bottom, and the
offsets are negative whenever the scaled image exceeds the page. -/
theorem add_image_centered (img : ImageReader) (page_width page_height : ℚ)
    (hw : 0 < img.width) (hh : 0 < img.height) (hd : img.drawOk = true) :
    ∃ op, add_image_body img page_width page_height = .ok op ∧
      op.x = (page_width - op.width) / 2 ∧
      op.y = (page_height - op.height) / 2 ∧
      page_width - (op.x + op.width) = op.x ∧
      page_height - (op.y + op.height) = op.y ∧
      (page_width < op.width → op.x < 0) ∧
      (page_height < op.height → op.y < 0) := by
  have hw' : img.width ≠ 0 := Nat.pos_iff_ne_zero.mp hw
  have hh' : img.height ≠ 0 := Nat.pos_iff_ne_zero.mp hh
  refine ⟨_, add_image_body_eq img page_width page_height hw' hh' hd,
    rfl, rfl, by ring, by ring, ?_, ?_⟩
  · intro h
    dsimp only at h ⊢
    linarith
  · intro h
    dsimp only at h ⊢
    linarith

/-- Witness for C2 at a concrete 100 by 50 image on a 576 by 576 page. -/
theorem add_image_centered_w :
    ∃ op, add_image_body imgA 576 576 = .ok op ∧
      op.x = (576 - op.width) / 2 ∧
      op.y = (576 - op.height) / 2 ∧
      576 - (op.x + op.width) = op.x ∧
      576 - (op.y + op.height) = op.y ∧
      ((576 : ℚ) < op.width → op.x < 0) ∧
      ((576 : ℚ) < op.height → op.y < 0) :=
  add_image_centered imgA 576 576 (by decide) (by decide) rfl

/-- C3: get_page_size maps every name of the PDF_FORMATS table to the
table entry times 72 points per inch, and every unknown name to the 8x8
default of 576 by 576 points. -/
theorem get_page_size_spec :
    (∀ pr ∈ PDF_FORMATS, get_page_size pr.1 = (pr.2.1 * 72, pr.2.2 * 72)) ∧
    (∀ s, PDF_FORMATS.lookup s = none → get_page_size s = (576, 576)) := by
  constructor
  · intro pr hpr
    simp only [PDF_FORMATS, List.mem_cons, List.not_mem_nil, or_false] at hpr
    rcases hpr with h | h | h | h | h | h | h | h | h | h <;> subst h <;> rfl
  · intro s hs
    unfold get_page_size
    rw [hs]
    norm_num

/-- Witness for C3 at the 7x7 table entry and at an unknown name. -/
theorem get_page_size_spec_w :
    get_page_size ("7x7") = ((7 : ℚ) * 72, (7 : ℚ) * 72) ∧
    get_page_size ("no-such-format") = (576, 576) :=
  ⟨get_page_size_spec.1 (("7x7"), (7, 7)) (by simp [PDF_FORMATS]),
   get_page_size_spec.2 ("no-such-format") (by simp [PDF_FORMATS, List.lookup])⟩

/-- The canvas produced by one pages-loop entry: unchanged when the entry
contributes no page, otherwise the contributed page is emitted. -/
theorem process_page_canvas (env : Env) (pw ph : ℚ) (t i : Nat) (c : Canvas)
    (page : PageEntry) (hc : c.current = []) :
    (process_page env pw ph t i c page).1 =
      match step_doc env pw ph page with
      | none => c
      | some ops => { c with current := [], pages := c.pages ++ [ops] } := by
  cases hip : page.image_path with
  | none => simp [process_page, step_doc, hip]
  | some p =>
    by_cases hp : p = ("")
    · simp [process_page, step_doc, hip, hp]
    · cases hl : load_image_from_path env.fs p with
      | mk r l1 =>
        cases r with
        | none =>
          simp [process_page, step_doc, rendered_page, hip, hp, hl]
        | some img =>
          cases hb : add_image_body img pw ph with
          | ok op =>
            simp [process_page, step_doc, rendered_page, hip, hp, hl, hb,
              add_image_to_page, Canvas.showPage, hc]
          | error e =>
            simp [process_page, step_doc, rendered_page, hip, hp, hl, hb,
              add_image_to_page, Canvas.showPage, hc]

/-- The canvas produced by the whole pages loop: the pages contributed by
the entries, in order, appended to the pages already emitted. -/
theorem process_pages_canvas (env : Env) (pw ph : ℚ) (t : Nat)
    (l : List PageEntry) :
    ∀ (i : Nat) (c : Canvas) (logs : List String), c.current = [] →
    (process_pages env pw ph t i c logs l).1 =
      { output_path := c.output_path, pagesize := c.pagesize, current := [],
        pages := c.pages ++ l.filterMap (step_doc env pw ph) } := by
  induction l with
  | nil =>
    intro i c logs hc
    cases c
    simp_all [process_pages]
  | cons page rest ih =>
    intro i c logs hc
    unfold process_pages
    cases hpp : process_page env pw ph t i c page with
    | mk c2 lg =>
      have h2 := process_page_canvas env pw ph t i c page hc
      rw [hpp] at h2
      dsimp only at h2
      cases hs : step_doc env pw ph page with
      | none =>
        rw [hs] at h2
        subst h2
        rw [ih (i + 1) c2 (logs ++ lg) hc]
        simp [List.filterMap_cons, hs]
      | some ops =>
        rw [hs] at h2
        subst h2
        rw [ih (i + 1) _ (logs ++ lg) rfl]
        simp [List.filterMap_cons, hs]

/-- The canvas produced by the cover block: the cover page, when it
renders, appended to the pages already emitted. -/
theorem process_cover_canvas (env : Env) (pw ph : ℚ) (cover : Option String)
    (c : Canvas) (hc : c.current = []) :
    (process_cover env pw ph cover c).1 =
      { output_path := c.output_path, pagesize := c.pagesize, current := [],
        pages := c.pages ++ cover_doc env pw ph cover } := by
  unfold process_cover cover_doc
  by_cases ht : truthy cover
  · simp only [ht, if_true]
    cases hl : load_image_from_path env.fs (cover.getD ("")) with
    | mk r l1 =>
      cases r with
      | none =>
        cases c
        simp_all [rendered_page, hl]
      | some img =>
        cases hb : add_image_body img pw ph with
        | ok op =>
          simp [rendered_page, hl, hb, add_image_to_page, Canvas.showPage, hc]
        | error e =>
          simp [rendered_page, hl, hb, add_image_to_page, Canvas.showPage, hc]
  · cases c
    simp_all

/-- Success normal form of generate_pdf: with an output_path present the
run returns the success record, saves the expected document, and emits
some log. -/
theorem generate_pdf_ok (env : Env) (config : Config) (p : String)
    (h : config.output_path = some p) :
    ∃ logs, generate_pdf env config =
      (PyResult.ok p (env.getsize p) (page_count_of config),
       some (expected_doc env (get_page_size (config.format.getD ("8x8"))).1
              (get_page_size (config.format.getD ("8x8"))).2
              config.cover_image (config.pages.getD [])),
       logs) := by
  cases hcv : process_cover env (get_page_size (config.format.getD ("8x8"))).1
      (get_page_size (config.format.getD ("8x8"))).2 config.cover_image
      { output_path := p, pagesize := get_page_size (config.format.getD ("8x8")),
        current := [], pages := [] } with
  | mk c1 logs1 =>
    cases hpp : process_pages env (get_page_size (config.format.getD ("8x8"))).1
        (get_page_size (config.format.getD ("8x8"))).2
        (config.pages.getD []).length 0 c1 [] (config.pages.getD []) with
    | mk c2 logs2 =>
      have e1 := process_cover_canvas env (get_page_size (config.format.getD ("8x8"))).1
        (get_page_size (config.format.getD ("8x8"))).2 config.cover_image
        { output_path := p, pagesize := get_page_size (config.format.getD ("8x8")),
          current := [], pages := [] } rfl
      rw [hcv] at e1
      dsimp only at e1
      have hc1 : c1.current = [] := by rw [e1]
      have e2 := process_pages_canvas env (get_page_size (config.format.getD ("8x8"))).1
        (get_page_size (config.format.getD ("8x8"))).2
        (config.pages.getD []).length (config.pages.getD []) 0 c1 [] hc1
      rw [hpp] at e2
      dsimp only at e2
      have hdoc : c2.pages = expected_doc env (get_page_size (config.format.getD ("8x8"))).1
          (get_page_size (config.format.getD ("8x8"))).2
          config.cover_image (config.pages.getD []) := by
        rw [e2, e1]
        simp [expected_doc]
      have hg : generate_pdf env config =
          (PyResult.ok p (env.getsize p) (page_count_of config), some c2.pages,
           ([("Generating PDF: ") ++ p,
             ("Format: ") ++ config.format.getD ("8x8"),
             ("Pages: ") ++ toString (config.pages.getD []).length]
            ++ logs1 ++ logs2 ++ [("PDF generated: ") ++ p])) := by
        unfold generate_pdf generate_pdf_body
        rw [h]
        dsimp only
        rw [hcv]
        dsimp only
        rw [hpp]
      rw [hdoc] at hg
      exact ⟨_, hg⟩

/-- C4: an image path under an objects storage prefix, or one that does not
exist locally, makes load_image_from_path return None with a log line; such
an entry contributes no page, and generate_pdf produces the same document
as if the entry were absent and still succeeds. -/
theorem load_skip_and_continue (env : Env) (path : String)
    (h : startswith path ("/objects/") = true ∨ startswith path ("objects/") = true ∨
         env.fs path = none) :
    (load_image_from_path env.fs path).1 = none ∧
    (load_image_from_path env.fs path).2 ≠ [] ∧
    (∀ pw ph : ℚ, step_doc env pw ph ⟨some path⟩ = none) ∧
    (∀ (config : Config) (p : String) (pre post : List PageEntry),
      config.output_path = some p →
      config.pages = some (pre ++ PageEntry.mk (some path) :: post) →
      (generate_pdf env config).2.1 =
        (generate_pdf env { config with pages := some (pre ++ post) }).2.1 ∧
      (generate_pdf env config).1.success = true) := by
  have hload : (load_image_from_path env.fs path).1 = none ∧
      (load_image_from_path env.fs path).2 ≠ [] := by
    rcases h with h1 | h2 | h3
    · simp [load_image_from_path, load_image_body, h1]
    · simp [load_image_from_path, load_image_body, h2]
    · by_cases hsw : (startswith path ("/objects/") || startswith path ("objects/")) = true
      · simp [load_image_from_path, load_image_body, hsw]
      · simp [load_image_from_path, load_image_body, hsw, h3]
  have hstep : ∀ pw ph : ℚ, step_doc env pw ph ⟨some path⟩ = none := by
    intro pw ph
    by_cases hp : path = ("")
    · simp [step_doc, hp]
    · simp [step_doc, hp, rendered_page, hload.1]
  refine ⟨hload.1, hload.2, hstep, ?_⟩
  intro config p pre post hop hpg
  obtain ⟨l1, hg1⟩ := generate_pdf_ok env config p hop
  obtain ⟨l2, hg2⟩ := generate_pdf_ok env { config with pages := some (pre ++ post) } p hop
  constructor
  · rw [hg1, hg2]
    dsimp only
    rw [hpg]
    simp [expected_doc, List.filterMap_append, hstep]
  · rw [hg1]
    rfl

/-- C5: generate_pdf returns the success record with output path, file
size and page count when generation completes, and the error record when
the exception (the missing output_path key) reaches the top-level handler. -/
theorem generate_pdf_result_contract (env : Env) (config : Config) :
    (∀ p, config.output_path = some p →
       ∃ doc logs, generate_pdf env config =
         (PyResult.ok p (env.getsize p) (page_count_of config), some doc, logs)) ∧
    (config.output_path = none →
       generate_pdf env config =
         (PyResult.err ("KeyError: output_path"), none,
          [("Error generating PDF: ") ++ ("KeyError: output_path")])) := by
  constructor
  · intro p hp
    obtain ⟨l, hg⟩ := generate_pdf_ok env config p hp
    exact ⟨_, l, hg⟩
  · intro hn
    unfold generate_pdf generate_pdf_body
    rw [hn]

/-- C6: the process exit status is 0 exactly when the success flag of the
returned record is true, and 1 otherwise. -/
theorem exit_code_reflects_success (env : Env) (config : Config) :
    (main_exit env config = 0 ↔ (generate_pdf env config).1.success = true) ∧
    (main_exit env config = 1 ↔ (generate_pdf env config).1.success = false) := by
  unfold main_exit
  by_cases hs : (generate_pdf env config).1.success = true
  · simp [hs]
  · simp [hs]

/-- C7: the saved document is the cover page first, when the cover is
configured and renders, followed by the pages of the pages list in input
order. -/
theorem pages_in_input_order (env : Env) (config : Config) (p : String)
    (h : config.output_path = some p) :
    (generate_pdf env config).2.1 =
      some (expected_doc env (get_page_size (config.format.getD ("8x8"))).1
        (get_page_size (config.format.getD ("8x8"))).2
        config.cover_image (config.pages.getD [])) := by
  obtain ⟨l, hg⟩ := generate_pdf_ok env config p h
  rw [hg]

/-- C8: the reported page_count is the number of configured page entries
plus one for a configured cover, counting entries whose image was skipped,
so it can exceed the number of pages actually drawn. -/
theorem page_count_counts_entries :
    (∀ (env : Env) (config : Config) (p : String), config.output_path = some p →
       (generate_pdf env config).1 =
         PyResult.ok p (env.getsize p)
           ((config.pages.getD []).length +
             (if truthy config.cover_image then 1 else 0))) ∧
    (∃ doc, (generate_pdf env0
        { output_path := some ("o.pdf"), format := none,
          cover_image := some ("c.png"),
          pages := some [⟨some ("m1.png")⟩, ⟨none⟩] }).2.1 = some doc ∧
      (generate_pdf env0
        { output_path := some ("o.pdf"), format := none,
          cover_image := some ("c.png"),
          pages := some [⟨some ("m1.png")⟩, ⟨none⟩] }).1 =
        PyResult.ok ("o.pdf") 0 3 ∧
      doc.length < 3) := by
  constructor
  · intro env config p hp
    obtain ⟨l, hg⟩ := generate_pdf_ok env config p hp
    rw [hg]
    rfl
  · exact ⟨[], rfl, rfl, by decide⟩

/-- C9: load_image_from_path and add_image_to_page catch every exception of
their bodies, logging and returning None or leaving the canvas unchanged; a
zero pixel dimension raises the division by zero the scale computation
would hit; and no per-image failure keeps generate_pdf from succeeding. -/
theorem bad_images_never_abort :
    (∀ (fs : FS) (path e : String), load_image_body fs path = .error e →
       load_image_from_path fs path =
         (none, [("Error loading image ") ++ path ++ (": ") ++ e])) ∧
    (∀ (c : Canvas) (img : ImageReader) (pw ph : ℚ) (e : String),
       add_image_body img pw ph = .error e →
       add_image_to_page c (some img) pw ph =
         (c, [("Error adding image to page: ") ++ e])) ∧
    (∀ (img : ImageReader) (pw ph : ℚ), img.width = 0 ∨ img.height = 0 →
       add_image_body img pw ph = .error ("division by zero")) ∧
    (∀ (env : Env) (config : Config) (p : String), config.output_path = some p →
       (generate_pdf env config).1.success = true) := by
  refine ⟨?_, ?_, ?_, ?_⟩
  · intro fs path e he
    unfold load_image_from_path
    rw [he]
  · intro c img pw ph e he
    unfold add_image_to_page
    dsimp only
    rw [he]
  · intro img pw ph h
    unfold add_image_body
    rcases h with h | h
    · rw [if_pos h]
    · by_cases hw : img.width = 0
      · rw [if_pos hw]
      · rw [if_neg hw, if_pos h]
  · intro env config p hp
    obtain ⟨l, hg⟩ := generate_pdf_ok env config p hp
    rw [hg]
    rfl

/-- C10: missing optional config keys get defaults: an omitted format
behaves like 8x8 (576 by 576 points), omitted pages behave like the empty
list, a falsy image_path is skipped with a log line, and only a missing
output_path key produces a failure record. -/
theorem config_defaults :
    get_page_size ("8x8") = (576, 576) ∧
    (∀ (env : Env) (config : Config), config.format = none →
       generate_pdf env config = generate_pdf env { config with format := some ("8x8") }) ∧
    (∀ (env : Env) (config : Config), config.pages = none →
       generate_pdf env config = generate_pdf env { config with pages := some [] }) ∧
    (∀ (env : Env) (pw ph : ℚ) (t i : Nat) (c : Canvas) (page : PageEntry),
       (page.image_path = none ∨ page.image_path = some ("")) →
       process_page env pw ph t i c page =
         (c, [("Skipping page ") ++ toString (i + 1) ++ (": no image path")])) ∧
    (∀ (env : Env) (config : Config), config.output_path = none →
       (generate_pdf env config).1 = PyResult.err ("KeyError: output_path")) ∧
    (∀ (env : Env) (config : Config) (p : String), config.output_path = some p →
       (generate_pdf env config).1.success = true) := by
  have h88 : get_page_size ("8x8") = ((8 : ℚ) * 72, (8 : ℚ) * 72) := rfl
  refine ⟨by rw [h88]; norm_num, ?_, ?_, ?_, ?_, ?_⟩
  · intro env config h
    rcases config with ⟨op, fmt, cov, pgs⟩
    dsimp only at h
    subst h
    cases op <;> rfl
  · intro env config h
    rcases config with ⟨op, fmt, cov, pgs⟩
    dsimp only at h
    subst h
    cases op <;> rfl
  · intro env pw ph t i c page h
    rcases h with h | h
    · simp [process_page, h]
    · simp [process_page, h]
  · intro env config h
    unfold generate_pdf generate_pdf_body
    rw [h]
  · intro env config p hp
    obtain ⟨l, hg⟩ := generate_pdf_ok env config p hp
    rw [hg]
    rfl

/-- Witness for C4 at a concrete objects-prefixed path. -/
theorem load_skip_and_continue_w :
    (load_image_from_path env0.fs ("objects/img1.png")).1 = none ∧
    (load_image_from_path env0.fs ("objects/img1.png")).2 ≠ [] ∧
    (generate_pdf env0
      { output_path := some ("c4.pdf"), format := none, cover_image := none,
        pages := some ([] ++ PageEntry.mk (some ("objects/img1.png")) :: []) }).1.success
      = true := by
  have h := load_skip_and_continue env0 ("objects/img1.png") (Or.inr (Or.inl (by decide)))
  exact ⟨h.1, h.2.1, (h.2.2.2 _ ("c4.pdf") [] [] rfl rfl).2⟩

/-- Witness for C5 at a concrete empty config and at a config with no
output path. -/
theorem generate_pdf_result_contract_w :
    (∃ doc logs, generate_pdf env0
        { output_path := some ("c5.pdf"), format := none, cover_image := none,
          pages := none } =
      (PyResult.ok ("c5.pdf") 0 0, some doc, logs)) ∧
    generate_pdf env0
        { output_path := none, format := none, cover_image := none, pages := none } =
      (PyResult.err ("KeyError: output_path"), none,
       [("Error generating PDF: ") ++ ("KeyError: output_path")]) :=
  ⟨(generate_pdf_result_contract env0 _).1 ("c5.pdf") rfl,
   (generate_pdf_result_contract env0 _).2 rfl⟩

/-- Witness for C7 at a concrete config with a cover and two pages. -/
theorem pages_in_input_order_w :
    (generate_pdf envA
      { output_path := some ("c7.pdf"), format := some ("7x7"),
        cover_image := some ("a.png"),
        pages := some [⟨some ("a.png")⟩, ⟨some ("missing.png")⟩] }).2.1 =
      some (expected_doc envA (get_page_size ("7x7")).1 (get_page_size ("7x7")).2
        (some ("a.png")) [⟨some ("a.png")⟩, ⟨some ("missing.png")⟩]) :=
  pages_in_input_order envA _ ("c7.pdf") rfl

/-- Witness for C8 at a concrete one-page config. -/
theorem page_count_counts_entries_w :
    (generate_pdf envA
      { output_path := some ("c8.pdf"), format := none, cover_image := none,
        pages := some [⟨some ("a.png")⟩] }).1 =
      PyResult.ok ("c8.pdf") 7 1 :=
  page_count_counts_entries.1 envA _ ("c8.pdf") rfl

/-- Witness for C9 at an undecodable file, a zero-width image and a config
whose cover is the undecodable file. -/
theorem bad_images_never_abort_w :
    load_image_from_path fsA ("bad.png") =
      (none, [("Error loading image ") ++ ("bad.png") ++ (": ") ++
        ("cannot identify image file")]) ∧
    add_image_body
        { path := ("z.png"), width := 0, height := 10, mode := ("RGB"), drawOk := true }
        576 576 = .error ("division by zero") ∧
    (generate_pdf envA
      { output_path := some ("c9.pdf"), format := none,
        cover_image := some ("bad.png"), pages := none }).1.success = true :=
  ⟨bad_images_never_abort.1 fsA ("bad.png") ("cannot identify image file") rfl,
   bad_images_never_abort.2.2.1 _ 576 576 (Or.inl rfl),
   bad_images_never_abort.2.2.2 envA _ ("c9.pdf") rfl⟩

/-- Witness for C10 at concrete configs exercising the format default, the
falsy image_path skip and the missing output_path failure. -/
theorem config_defaults_w :
    generate_pdf env0
        { output_path := some ("c10.pdf"), format := none, cover_image := none,
          pages := none } =
      generate_pdf env0
        { output_path := some ("c10.pdf"), format := some ("8x8"),
          cover_image := none, pages := none } ∧
    process_page env0 576 576 5 0
        { output_path := ("c10.pdf"), pagesize := (576, 576), current := [], pages := [] }
        ⟨none⟩ =
      ({ output_path := ("c10.pdf"), pagesize := (576, 576), current := [], pages := [] },
       [("Skipping page ") ++ toString (0 + 1) ++ (": no image path")]) ∧
    (generate_pdf env0
      { output_path := none, format := none, cover_image := none, pages := none }).1 =
      PyResult.err ("KeyError: output_path") :=
  ⟨config_defaults.2.1 env0 _ rfl,
   config_defaults.2.2.2.1 env0 576 576 5 0 _ ⟨none⟩ (Or.inl rfl),
   config_defaults.2.2.2.2.1 env0 _ rfl⟩
